import Mathlib

/-!
Verification of the media-acquisition pipeline of the Reddit memes scraper:
the token manager and listing fetcher (`src/services/subreddit-scraper.ts`)
and the sanitizer (`sanitizeAndFilterImages` in the server action file).

The TypeScript code is shallowly embedded: network effects become explicit
parameters (the response each endpoint would give), the module-level token
cache becomes an explicit `TokenCache` value threaded in and out, thrown
errors become `Except` values classified by the error taxonomy of the spec,
and JavaScript truthiness on strings and numbers is made explicit
(a string is truthy iff non-empty, a number is truthy iff non-zero).
-/

namespace RedditScraper

/-- Error taxonomy of the spec (section 7).  The TypeScript code throws
`Error` values whose messages identify the case; each throw site is mapped
to the taxonomy constructor its message corresponds to. -/
inductive ScrapeError where
  | CredentialsMissing
  | AuthRejected
  | InvalidSource
  | SourceNotFound
  | AccessDenied
  | RateLimited
  | UpstreamError
  | NetworkError
deriving DecidableEq, Repr

/-- `mediaType` of a `MediaPost`: the union type `"image" | "video" | "redgifs"`. -/
inductive MediaType where
  | image
  | video
  | redgifs
deriving DecidableEq, Repr

/-- The `MediaPost` interface of `subreddit-scraper.ts`. -/
structure MediaPost where
  mediaUrl : String
  mediaType : MediaType
  title : String
  redditUrl : String
deriving DecidableEq, Repr

/-- The `post_hint` union type `"image" | "hosted:video" | "link" | "rich:video" | "self"`. -/
inductive PostHint where
  | image
  | hostedVideo
  | link
  | richVideo
  | selfPost
deriving DecidableEq, Repr

/-- `media.reddit_video` of a listing entry (only the field the code reads). -/
structure RedditVideo where
  fallback_url : Option String
deriving DecidableEq, Repr

/-- `media.oembed` of a listing entry (only the field the code reads). -/
structure Oembed where
  provider_name : Option String
deriving DecidableEq, Repr

/-- `media` of a listing entry. -/
structure RedditMedia where
  reddit_video : Option RedditVideo
  oembed : Option Oembed
deriving DecidableEq, Repr

/-- `preview.reddit_video_preview` of a listing entry. -/
structure RedditVideoPreview where
  fallback_url : Option String
deriving DecidableEq, Repr

/-- `preview` of a listing entry. -/
structure Preview where
  reddit_video_preview : Option RedditVideoPreview
deriving DecidableEq, Repr

/-- `secure_media_embed` of a listing entry. -/
structure SecureMediaEmbed where
  media_domain_url : Option String
deriving DecidableEq, Repr

/-- The fields of `RedditPostData` that `scrapeTrendyImages` reads.  Optional
TypeScript fields of object type are `Option`; the optional boolean flags
`is_gallery` and `stickied` are modelled as `Bool` since the code only ever
tests their truthiness (absent and `false` behave identically). -/
structure RedditPostData where
  title : String
  permalink : String
  url : String
  post_hint : Option PostHint
  is_video : Bool
  is_gallery : Bool
  stickied : Bool
  domain : String
  preview : Option Preview
  media : Option RedditMedia
  secure_media_embed : Option SecureMediaEmbed
deriving DecidableEq, Repr

/-- `RedditListingChild`: `kind` plus the post payload.  `data` is `Option`
because the code guards with `!child.data`. -/
structure RedditListingChild where
  kind : String
  data : Option RedditPostData
deriving DecidableEq, Repr

/-- The part of `RedditListingData` the code reads; `children` is `Option`
because the code guards with `!listing.data.children` (in JavaScript an
array, even empty, is truthy, so that guard only fires when the field is
absent). -/
structure RedditListingData where
  children : Option (List RedditListingChild)
deriving DecidableEq, Repr

/-- `RedditApiResponse`: top-level `kind` and `data`; `data` is `Option`
because the code guards with `!listing.data`. -/
structure RedditApiResponse where
  kind : String
  data : Option RedditListingData
deriving DecidableEq, Repr

/-- `RedditTokenResponse` from the credential grant endpoint.  `expires_in`
is an `Int` (a JavaScript number of seconds). -/
structure RedditTokenResponse where
  access_token : String
  token_type : String
  expires_in : Int
deriving DecidableEq, Repr

/-- Outcome of one `fetch` call, seen from the caller: either the promise
rejects (transport failure) or a response arrives with a status code and,
when the caller parses JSON, either a well-shaped body or not
(`body = none` covers both a JSON parse failure and a body that does not
have the expected type). -/
inductive FetchResult (α : Type) where
  | networkFailure
  | response (status : Nat) (body : Option α)
deriving DecidableEq, Repr

/-- `response.ok` of the Fetch API: status in the range 200..299. -/
def statusOk (s : Nat) : Bool := 200 ≤ s && s ≤ 299

/-- JavaScript truthiness of an optional string: present and non-empty. -/
def strTruthy : Option String → Bool
  | none => false
  | some s => s != ""

/-! ### String primitives

The string operations the model needs (split, lowercase, suffix and
substring tests) are implemented here by structural recursion on the
character list of the string, so that every definition in this file
evaluates by kernel reduction on concrete inputs. -/

/-- Split a character list on a non-empty separator; `fuel` bounds the
recursion (one unit per consumed character, so `l.length + 1` always
suffices and the fuel-exhausted branch is unreachable). -/
def splitOnCharsAux (sep : List Char) : List Char → List Char → Nat → List (List Char)
  | l, acc, 0 => [acc.reverse ++ l]
  | [], acc, _ + 1 => [acc.reverse]
  | c :: rest, acc, fuel + 1 =>
    if sep.isPrefixOf (c :: rest) then
      acc.reverse :: splitOnCharsAux sep ((c :: rest).drop sep.length) [] fuel
    else
      splitOnCharsAux sep rest (c :: acc) fuel

/-- `String.splitOn` on character lists: like JavaScript and Lean, an empty
separator yields the whole string as the single chunk. -/
def splitOnChars (l sep : List Char) : List (List Char) :=
  if sep.isEmpty then [l] else splitOnCharsAux sep l [] (l.length + 1)

/-- `String.prototype.split` / `String.splitOn` over the model. -/
def strSplitOn (s sep : String) : List String :=
  (splitOnChars s.data sep.data).map String.mk

/-- `String.prototype.toLowerCase` (ASCII, which is all the code compares). -/
def strToLower (s : String) : String :=
  ⟨s.data.map Char.toLower⟩

/-- `String.prototype.endsWith`. -/
def strEndsWith (s suff : String) : Bool :=
  List.isSuffixOf suff.data s.data

/-- `Array.prototype.join` / `String.intercalate`. -/
def strIntercalate (sep : String) : List String → String
  | [] => ""
  | [x] => x
  | x :: y :: xs => x ++ sep ++ strIntercalate sep (y :: xs)

/-- Model of the WHATWG `new URL(...)` builtin, restricted to what the code
reads: `protocol`, `hostname` and `pathname`.  Simplified: the input must be
`scheme://host[:port]/path...`; scheme and hostname are lowercased, the
port, query and fragment are stripped.  `none` models the constructor
throwing. -/
structure ParsedUrl where
  protocol : String
  hostname : String
  pathname : String
deriving DecidableEq, Repr

/-- Parse a URL string; see `ParsedUrl`. -/
def parseUrl (s : String) : Option ParsedUrl :=
  match strSplitOn s "://" with
  | [scheme, rest] =>
    if scheme = "" || rest = "" then none
    else
      let afterScheme := strSplitOn rest "/"
      let hostPort := afterScheme.headD ""
      let hostname :=
        (strSplitOn ((strSplitOn ((strSplitOn hostPort "?").headD "") "#").headD "") ":").headD ""
      let pathname := "/" ++ strIntercalate "/" afterScheme.tail
      if hostname = "" then none
      else some ⟨strToLower scheme ++ ":", strToLower hostname, pathname⟩
  | _ => none

/-! ## Sanitizer (`sanitizeAndFilterImages` and `isValidAndAllowedUrl`) -/

/-- `isValidAndAllowedUrl` from the server action file: a URL is valid and
allowed when it is non-empty (truthy), parses, has protocol `http:` or
`https:` and a hostname in the allowed set.  The allowed-hostname `Set` is
modelled as a list, membership by `contains`. -/
def isValidAndAllowedUrl (mediaUrl : String) (allowedHostnames : List String) : Bool :=
  if mediaUrl = "" then false
  else
    match parseUrl mediaUrl with
    | none => false
    | some u =>
      (u.protocol == "http:" || u.protocol == "https:") && allowedHostnames.contains u.hostname

/-- The body of the `for` loop of `sanitizeAndFilterImages`: a non-image
post is dropped (`continue`), a valid allowed image is pushed, an invalid
one is dropped (the placeholder substitution branch in the source is
commented out). -/
def sanitizeStep (allowedHostnames : List String) (sanitizedImages : List MediaPost)
    (post : MediaPost) : List MediaPost :=
  if post.mediaType ≠ MediaType.image then sanitizedImages
  else if isValidAndAllowedUrl post.mediaUrl allowedHostnames then
    sanitizedImages ++ [post]
  else sanitizedImages

/-- `sanitizeAndFilterImages`: fold the loop body over `media` starting
from the empty array.  The two counters of the source are used only for
logging and are omitted. -/
def sanitizeAndFilterImages (media : List MediaPost) (allowedHostnames : List String) :
    List MediaPost :=
  media.foldl (sanitizeStep allowedHostnames) []

/-- The sanitization policy as the spec states it (section 4.4): a stable
filter keeping exactly the image posts whose URL parses with scheme
http/https and an allowed hostname.  Stated separately so that the code
side can be proved to refine it. -/
def specSanitizePolicy (media : List MediaPost) (allowedHostnames : List String) :
    List MediaPost :=
  media.filter (fun post =>
    post.mediaType == MediaType.image &&
      match parseUrl post.mediaUrl with
      | none => false
      | some u =>
        (u.protocol == "http:" || u.protocol == "https:") &&
          allowedHostnames.contains u.hostname)

/-! ## Token Manager (`getRedditAccessToken`)

The module-level variables `redditAccessToken` and `tokenExpiryTime` become
an explicit `TokenCache` value; a call takes the cache before the call and
returns the cache after it, together with the result and the number of
network requests performed.  Both `Date.now()` reads inside one call are
modelled as the same instant `now`. -/

/-- The in-memory token cache: `redditAccessToken` and `tokenExpiryTime`.
Times are `Int` milliseconds. -/
structure TokenCache where
  redditAccessToken : Option String
  tokenExpiryTime : Option Int
deriving DecidableEq, Repr

/-- Result of one call to `getRedditAccessToken`: the cache left behind,
the token or the classified error, and how many network requests the call
performed. -/
structure TokenFetchOutcome where
  cache : TokenCache
  result : Except ScrapeError String
  requests : Nat
deriving Repr

/-- The cache-hit test of `getRedditAccessToken`:
`redditAccessToken && tokenExpiryTime && now < tokenExpiryTime`, with
JavaScript truthiness (non-empty string, non-zero number). -/
def tokenCacheHitB (cache : TokenCache) (now : Int) : Bool :=
  match cache.redditAccessToken, cache.tokenExpiryTime with
  | some tok, some exp => tok != "" && exp != 0 && decide (now < exp)
  | _, _ => false

/-- The refresh path of `getRedditAccessToken` (cache miss).  Throw sites
are mapped to the taxonomy as follows: missing env credentials ↦
`CredentialsMissing` (thrown before the try block, so the cache is left as
it was); a 401 from the grant endpoint clears the cache inline and throws,
and any other non-2xx status throws and is cleared by the catch block —
both surface as `AuthRejected`; a malformed or non-bearer token body and a
rejected fetch promise both end, after the catch block clears the cache, in
the generic could-not-connect error ↦ `NetworkError`. -/
def refreshRedditToken (cache : TokenCache) (now : Int)
    (creds : Option (String × String)) (net : FetchResult RedditTokenResponse) :
    TokenFetchOutcome :=
  match creds with
  | none => ⟨cache, .error .CredentialsMissing, 0⟩
  | some _ =>
    match net with
    | .networkFailure => ⟨⟨none, none⟩, .error .NetworkError, 1⟩
    | .response status body =>
      if statusOk status = false then
        -- the 401 branch clears the cache before throwing; every other
        -- non-2xx throw is cleared by the catch block — same net effect
        if status = 401 then ⟨⟨none, none⟩, .error .AuthRejected, 1⟩
        else ⟨⟨none, none⟩, .error .AuthRejected, 1⟩
      else
        match body with
        | none => ⟨⟨none, none⟩, .error .NetworkError, 1⟩
        | some tokenData =>
          if tokenData.token_type ≠ "bearer" || tokenData.access_token = "" then
            ⟨⟨none, none⟩, .error .NetworkError, 1⟩
          else
            ⟨⟨some tokenData.access_token,
              some (now + (tokenData.expires_in - 300) * 1000)⟩,
             .ok tokenData.access_token, 1⟩

/-- `getRedditAccessToken`: return the cached token when the cache test
passes (no network request, cache untouched), otherwise refresh. -/
def getRedditAccessToken (cache : TokenCache) (now : Int)
    (creds : Option (String × String)) (net : FetchResult RedditTokenResponse) :
    TokenFetchOutcome :=
  if tokenCacheHitB cache now then
    ⟨cache, .ok (cache.redditAccessToken.getD ""), 0⟩
  else
    refreshRedditToken cache now creds net

/-! ## Feed Classifier (the media-detection block of `scrapeTrendyImages`) -/

/-- The regular expression test `/\.(jpg|jpeg|png|gif)$/i.test(url)`. -/
def endsWithImageExt (url : String) : Bool :=
  let l := strToLower url
  strEndsWith l ".jpg" || strEndsWith l ".jpeg" || strEndsWith l ".png" || strEndsWith l ".gif"

/-- `String.prototype.includes`: `sub` occurs somewhere in `s`. -/
def containsSub (s sub : String) : Bool :=
  (strSplitOn s sub).length != 1

/-- `postData.media?.reddit_video?.fallback_url`. -/
def redditVideoFallback (postData : RedditPostData) : Option String :=
  (postData.media.bind RedditMedia.reddit_video).bind RedditVideo.fallback_url

/-- `postData.preview?.reddit_video_preview?.fallback_url`. -/
def previewVideoFallback (postData : RedditPostData) : Option String :=
  (postData.preview.bind Preview.reddit_video_preview).bind RedditVideoPreview.fallback_url

/-- `postData.media?.oembed?.provider_name`. -/
def oembedProviderName (postData : RedditPostData) : Option String :=
  (postData.media.bind RedditMedia.oembed).bind Oembed.provider_name

/-- `postData.secure_media_embed?.media_domain_url`. -/
def secureMediaDomainUrl (postData : RedditPostData) : Option String :=
  postData.secure_media_embed.bind SecureMediaEmbed.media_domain_url

/-- The media-detection block of `scrapeTrendyImages` (the `foundMedia`
computation): an if/else-if chain over four rules.  Rule 1 fires on
`post_hint === "image"` or an image extension; inside that branch the URL
must additionally be truthy and must not contain `"gallery"`, otherwise
`foundMedia` stays null and, the chain being else-if, no later rule is
tried. -/
def classifyPost (postData : RedditPostData) : Option (String × MediaType) :=
  if postData.post_hint = some PostHint.image || endsWithImageExt postData.url then
    if postData.url ≠ "" && !(containsSub postData.url "gallery") then
      some (postData.url, MediaType.image)
    else
      none
  else if postData.is_video && strTruthy (redditVideoFallback postData) then
    some ((redditVideoFallback postData).getD "", MediaType.video)
  else if postData.domain = "redgifs.com" || oembedProviderName postData = some "Redgifs" then
    let redgifsUrl :=
      if strTruthy (secureMediaDomainUrl postData)
          && containsSub ((secureMediaDomainUrl postData).getD "") "redgifs.com" then
        (secureMediaDomainUrl postData).getD ""
      else if strTruthy (previewVideoFallback postData)
          && containsSub ((previewVideoFallback postData).getD "") "redgifs" then
        (previewVideoFallback postData).getD ""
      else
        postData.url
    some (redgifsUrl, MediaType.redgifs)
  else if postData.post_hint = some PostHint.richVideo || postData.post_hint = some PostHint.link then
    if postData.domain = "gfycat.com" && strTruthy (previewVideoFallback postData) then
      some ((previewVideoFallback postData).getD "", MediaType.video)
    else if postData.domain = "imgur.com" && strEndsWith postData.url ".gifv"
        && strTruthy (previewVideoFallback postData) then
      some ((previewVideoFallback postData).getD "", MediaType.video)
    else
      none
  else
    none

/-! ## Listing Fetcher (`scrapeTrendyImages`) -/

/-- One iteration of the `forEach` over `listing.data.children`, acting on
the accumulator (the `mediaPosts` list and the `skippedCount`).  The guard
`child.kind !== "t3" || !child.data` of the source is split into two early
returns with the same effect.  After classification, an entry is appended
only when media was found, its URL is truthy and its type is `image`, and
no already-appended post has the same `mediaUrl`; every other entry counts
as skipped. -/
def processChild (acc : List MediaPost × Nat) (child : RedditListingChild) :
    List MediaPost × Nat :=
  match child.data with
  | none => (acc.1, acc.2 + 1)
  | some postData =>
    if child.kind ≠ "t3" then (acc.1, acc.2 + 1)
    else if postData.stickied then (acc.1, acc.2 + 1)
    else if postData.is_gallery then (acc.1, acc.2 + 1)
    else
      let redditUrl := "https://www.reddit.com" ++ postData.permalink
      match classifyPost postData with
      | none => (acc.1, acc.2 + 1)
      | some (mediaUrl, mediaType) =>
        if mediaUrl ≠ "" && mediaType = MediaType.image then
          if acc.1.any (fun p => p.mediaUrl == mediaUrl) then
            (acc.1, acc.2 + 1)
          else
            (acc.1 ++ [{ mediaUrl := mediaUrl, mediaType := mediaType,
                         title := if postData.title ≠ "" then postData.title else "Untitled Post",
                         redditUrl := redditUrl }], acc.2)
        else (acc.1, acc.2 + 1)

/-- The whole `forEach` loop: fold `processChild` over the children and
return the accumulated `mediaPosts`. -/
def processListing (children : List RedditListingChild) : List MediaPost :=
  (children.foldl processChild ([], 0)).1

/-- `extractSubredditName`: parse the URL, split the pathname on `/`
dropping empty parts, and require the first part to be `r`
(case-insensitively); the subreddit name itself passes through unchanged. -/
def extractSubredditName (url : String) : Option String :=
  match parseUrl url with
  | none => none
  | some parsedUrl =>
    match (strSplitOn parsedUrl.pathname "/").filter (fun part => part ≠ "") with
    | p0 :: p1 :: _ => if strToLower p0 = "r" then some p1 else none
    | _ => none

/-- `scrapeTrendyImages`.  `limit` only shapes the request URL
(`min(limit, 100)`), never the processing of the response, so it is an
unused parameter here; the listing endpoint response is the explicit input
`listingNet`.

Every throw inside the main try block is caught by the function's own
catch block, whose rethrow filter matches the error message against a
fixed list of substrings; only matching errors are rethrown, every other
error is replaced by the one generic unexpected-error message.  The
taxonomy constructor of each case is therefore the one of the error that
finally propagates:
bad subreddit URL ↦ `InvalidSource` (thrown before the try block);
token-manager failures propagate (their messages match the filter);
status 401 clears the token cache and its message contains
`401 Unauthorized`, which the filter matches ↦ `AuthRejected`;
status 404 throws a message containing `(404)`, which the filter
matches ↦ `SourceNotFound`;
statuses 403 and 429 throw messages reading `(403 Forbidden)` and
`(429 Too Many Requests)`, which the filter entries `(403)` and `(429)`
do NOT match — the substring needs a closing parenthesis right after the
digits — so both are replaced by the generic unexpected error, the very
same that any other unhandled failure yields ↦ `UpstreamError`;
any other non-2xx status throws an unmatched message ↦ the generic
error ↦ `UpstreamError`; a wrong top-level `kind`, missing `data` or
missing `children` throws `invalid data structure`, which the filter
matches ↦ `UpstreamError`; an unparseable body and a rejected listing
fetch promise are unmatched ↦ the generic error ↦ `UpstreamError`.

`handleListingResponse` is the part of `scrapeTrendyImages` from the
listing fetch onward: status handling, shape validation, and the
`forEach` loop; `tcache` is the token cache as it stands after the token
was obtained. -/
def handleListingResponse (tcache : TokenCache) :
    FetchResult RedditApiResponse → TokenCache × Except ScrapeError (List MediaPost)
  | .networkFailure => (tcache, .error .UpstreamError)
  | .response status body =>
    if statusOk status = false then
      if status = 401 then (⟨none, none⟩, .error .AuthRejected)
      else if status = 404 then (tcache, .error .SourceNotFound)
      -- the dedicated 403 and 429 throws are swallowed by the catch
      -- filter (see the doc comment) and degrade to the generic error
      else if status = 403 then (tcache, .error .UpstreamError)
      else if status = 429 then (tcache, .error .UpstreamError)
      else (tcache, .error .UpstreamError)
    else
      match body with
      | none => (tcache, .error .UpstreamError)
      | some listing =>
        if listing.kind ≠ "Listing" then (tcache, .error .UpstreamError)
        else
          match listing.data with
          | none => (tcache, .error .UpstreamError)
          | some listingData =>
            match listingData.children with
            | none => (tcache, .error .UpstreamError)
            | some children => (tcache, .ok (processListing children))

def scrapeTrendyImages (subredditUrl : String) (_limit : Int) (cache : TokenCache)
    (now : Int) (creds : Option (String × String))
    (tokenNet : FetchResult RedditTokenResponse)
    (listingNet : FetchResult RedditApiResponse) :
    TokenCache × Except ScrapeError (List MediaPost) :=
  match extractSubredditName subredditUrl with
  | none => (cache, .error .InvalidSource)
  | some _ =>
    let t := getRedditAccessToken cache now creds tokenNet
    match t.result with
    | .error e => (t.cache, .error e)
    | .ok _ => handleListingResponse t.cache listingNet

/-! ## Theorems -/

/-- The Boolean predicate the sanitizer loop effectively filters by. -/
def sanitizeKeeps (allowedHostnames : List String) (post : MediaPost) : Bool :=
  post.mediaType == MediaType.image && isValidAndAllowedUrl post.mediaUrl allowedHostnames

lemma foldl_sanitizeStep_eq (allowed : List String) (media : List MediaPost) :
    ∀ acc : List MediaPost,
      media.foldl (sanitizeStep allowed) acc = acc ++ media.filter (sanitizeKeeps allowed) := by
  induction media with
  | nil => intro acc; simp
  | cons post rest ih =>
    intro acc
    rw [List.foldl_cons, List.filter_cons, ih]
    by_cases h1 : post.mediaType = MediaType.image
    · by_cases h2 : isValidAndAllowedUrl post.mediaUrl allowed
      · simp [sanitizeStep, sanitizeKeeps, h1, h2]
      · simp [sanitizeStep, sanitizeKeeps, h1, h2]
    · simp [sanitizeStep, sanitizeKeeps, h1]

lemma sanitizeAndFilterImages_eq_filter (media : List MediaPost) (allowed : List String) :
    sanitizeAndFilterImages media allowed = media.filter (sanitizeKeeps allowed) := by
  rw [sanitizeAndFilterImages, foldl_sanitizeStep_eq]
  simp

/-- C4: the Sanitizer is idempotent — running `sanitizeAndFilterImages` on
its own output, with the same allowed-hostname set, returns that output
unchanged. -/
theorem sanitizeAndFilterImages_idempotent (media : List MediaPost) (allowed : List String) :
    sanitizeAndFilterImages (sanitizeAndFilterImages media allowed) allowed =
      sanitizeAndFilterImages media allowed := by
  rw [sanitizeAndFilterImages_eq_filter, sanitizeAndFilterImages_eq_filter,
    List.filter_filter]
  simp

/-- C5: the Sanitizer output is exactly the stable filter the spec
describes — the subsequence, in input order, of the posts whose type is
`image` and whose `mediaUrl` parses with scheme http/https and an allowed
hostname; surviving posts are kept unchanged and everything else is
dropped. -/
theorem sanitizeAndFilterImages_eq_specSanitizePolicy (media : List MediaPost)
    (allowed : List String) :
    sanitizeAndFilterImages media allowed = specSanitizePolicy media allowed := by
  rw [sanitizeAndFilterImages_eq_filter, specSanitizePolicy]
  apply List.filter_congr
  intro post _
  by_cases h1 : post.mediaType = MediaType.image
  · by_cases h0 : post.mediaUrl = ""
    · simp [sanitizeKeeps, isValidAndAllowedUrl, h1, h0, parseUrl, strSplitOn, splitOnChars,
        splitOnCharsAux]
    · cases hp : parseUrl post.mediaUrl with
      | none => simp [sanitizeKeeps, isValidAndAllowedUrl, h1, h0, hp]
      | some u => simp [sanitizeKeeps, isValidAndAllowedUrl, h1, h0, hp]
  · have hb : (post.mediaType == MediaType.image) = false := by
      simpa using h1
    simp [sanitizeKeeps, hb]

/-- A listing entry whose content-hint marks it as an image, whose target
URL contains `"gallery"` (and does not end in an image extension), and
which also satisfies the hosted-video condition (`is_video` with a
fallback video URL). -/
def galleryHintVideoEntry : RedditPostData :=
  { title := "A", permalink := "/r/pics/comments/1/a/",
    url := "https://www.reddit.com/gallery/xyz",
    post_hint := some PostHint.image, is_video := true, is_gallery := false,
    stickied := false, domain := "reddit.com", preview := none,
    media := some { reddit_video := some { fallback_url := some "https://v.redd.it/f/DASH_720.mp4" },
                    oembed := none },
    secure_media_embed := none }

/-- C3 counterexample: `galleryHintVideoEntry` satisfies the rule-1
condition as the claim words it (its content-hint marks it as an image)
and the rule-2 hosted-video condition, yet the classifier returns no
classification at all — not `image` with the target URL: the
gallery-substring guard sits inside the rule-1 branch of an else-if chain,
so when it fails no later rule is tried either. -/
theorem classifyPost_rule1_gallery_counterexample :
    (galleryHintVideoEntry.post_hint = some PostHint.image ∨
      (endsWithImageExt galleryHintVideoEntry.url = true ∧
        containsSub galleryHintVideoEntry.url "gallery" = false)) ∧
    galleryHintVideoEntry.is_video = true ∧
    strTruthy (redditVideoFallback galleryHintVideoEntry) = true ∧
    classifyPost galleryHintVideoEntry = none := by
  refine ⟨Or.inl rfl, rfl, by decide, by decide⟩

/-- C3 (amended): for every entry satisfying the rule-1 hint-or-extension
condition whose target URL is moreover non-empty and free of the substring
`"gallery"`, and satisfying the rule-2 hosted-video condition, the
classifier returns type `image` with URL equal to the target URL — rule 1
wins over rule 2. -/
theorem classifyPost_rule1_wins (postData : RedditPostData)
    (h1 : postData.post_hint = some PostHint.image ∨ endsWithImageExt postData.url = true)
    (hne : postData.url ≠ "")
    (hg : containsSub postData.url "gallery" = false)
    (h2v : postData.is_video = true)
    (h2f : strTruthy (redditVideoFallback postData) = true) :
    classifyPost postData = some (postData.url, MediaType.image) := by
  rcases h1 with h | h
  · simp [classifyPost, h, hne, hg]
  · simp [classifyPost, h, hne, hg]

/-- Witness for the amended C3 at a concrete entry that satisfies both
rules cleanly. -/
def imageAndVideoEntry : RedditPostData :=
  { galleryHintVideoEntry with url := "https://i.redd.it/abc.jpg", domain := "i.redd.it" }

theorem classifyPost_rule1_wins_witness :
    classifyPost imageAndVideoEntry = some (imageAndVideoEntry.url, MediaType.image) :=
  classifyPost_rule1_wins imageAndVideoEntry (Or.inl rfl) (by decide) (by decide) rfl (by decide)

/-- C9: an entry that is not of kind `t3`, or is stickied, or is a
gallery, is skipped entirely: one loop iteration leaves the accumulated
media list unchanged — the classifier result never matters — and counts
one more skipped entry. -/
theorem processChild_skips_sticky_gallery_nonT3 (acc : List MediaPost × Nat)
    (child : RedditListingChild)
    (h : child.kind ≠ "t3" ∨
         ∃ d, child.data = some d ∧ (d.stickied = true ∨ d.is_gallery = true)) :
    processChild acc child = (acc.1, acc.2 + 1) := by
  cases hd : child.data with
  | none => simp [processChild, hd]
  | some postData =>
    rcases h with hk | ⟨d, hdd, hflag⟩
    · simp [processChild, hd, hk]
    · rw [hd] at hdd
      injection hdd with hdd
      subst hdd
      by_cases hk : child.kind = "t3"
      · rcases hflag with hs | hg
        · simp [processChild, hd, hk, hs]
        · cases hs : postData.stickied
          · simp [processChild, hd, hk, hs, hg]
          · simp [processChild, hd, hk, hs]
      · simp [processChild, hd, hk]

/-- The stickied entry of the spec example, `{stickied:true, url:"https://i.redd.it/x.png"}`. -/
def stickiedEntry : RedditListingChild :=
  { kind := "t3",
    data := some { title := "S", permalink := "/r/pics/comments/2/s/",
                   url := "https://i.redd.it/x.png", post_hint := some PostHint.image,
                   is_video := false, is_gallery := false, stickied := true,
                   domain := "i.redd.it", preview := none, media := none,
                   secure_media_embed := none } }

theorem processChild_skips_witness :
    processChild ([], 0) stickiedEntry = ([], 1) :=
  processChild_skips_sticky_gallery_nonT3 ([], 0) stickiedEntry
    (Or.inr ⟨_, rfl, Or.inl rfl⟩)

lemma refreshRedditToken_requests (cache : TokenCache) (now : Int) (cr : String × String)
    (net : FetchResult RedditTokenResponse) :
    (refreshRedditToken cache now (some cr) net).requests = 1 := by
  cases net with
  | networkFailure => rfl
  | response status body =>
    rw [refreshRedditToken.eq_def]
    dsimp only
    split
    · split <;> rfl
    · cases body with
      | none => rfl
      | some tokenData =>
        dsimp only
        split <;> rfl

lemma refreshRedditToken_clears_or_ok (cache : TokenCache) (now : Int) (cr : String × String)
    (net : FetchResult RedditTokenResponse) :
    (refreshRedditToken cache now (some cr) net).cache = ⟨none, none⟩ ∨
      ∃ t, (refreshRedditToken cache now (some cr) net).result = .ok t := by
  cases net with
  | networkFailure => left; rfl
  | response status body =>
    rw [refreshRedditToken.eq_def]
    dsimp only
    split
    · split
      · left; rfl
      · left; rfl
    · cases body with
      | none => left; rfl
      | some tokenData =>
        dsimp only
        split
        · left; rfl
        · right; exact ⟨_, rfl⟩

lemma refreshRedditToken_error_clears (cache : TokenCache) (now : Int) (cr : String × String)
    (net : FetchResult RedditTokenResponse) (e : ScrapeError)
    (h : (refreshRedditToken cache now (some cr) net).result = .error e) :
    (refreshRedditToken cache now (some cr) net).cache = ⟨none, none⟩ := by
  rcases refreshRedditToken_clears_or_ok cache now cr net with hc | ⟨t, ht⟩
  · exact hc
  · rw [ht] at h
    exact absurd h (by simp)

/-- C6: the token-cache hot path and the refresh trigger.  First: when a
cached (non-empty) token exists and `now` is strictly before its stored
expiry, `getRedditAccessToken` returns the cached token, performs zero
network requests, and leaves the cache exactly as it was.  Second: when
the stored expiry has passed (`expiresAt ≤ now`) and credentials are
configured, the call performs exactly one refresh request. -/
theorem getRedditAccessToken_cache_hot_path
    (cache : TokenCache) (now : Int) (creds : Option (String × String))
    (net : FetchResult RedditTokenResponse) (tok : String) (exp : Int)
    (hnow : 0 ≤ now) :
    (cache.redditAccessToken = some tok → tok ≠ "" → cache.tokenExpiryTime = some exp →
      now < exp → getRedditAccessToken cache now creds net = ⟨cache, .ok tok, 0⟩) ∧
    (cache.tokenExpiryTime = some exp → exp ≤ now → creds = some (creds.getD ("", "")) →
      (getRedditAccessToken cache now creds net).requests = 1) := by
  constructor
  · intro htok hne hexp hlt
    have hexp0 : exp ≠ 0 := by omega
    have hhit : tokenCacheHitB cache now = true := by
      simp [tokenCacheHitB, htok, hexp, hne, hexp0, hlt]
    simp [getRedditAccessToken, hhit, htok]
  · intro hexp hle hcreds
    have hmiss : tokenCacheHitB cache now = false := by
      cases htok : cache.redditAccessToken with
      | none => simp [tokenCacheHitB, htok]
      | some t =>
        have hnlt : ¬now < exp := not_lt.mpr hle
        simp [tokenCacheHitB, htok, hexp, hnlt]
    rw [getRedditAccessToken, hmiss]
    simp only [Bool.false_eq_true, if_false]
    rw [hcreds]
    exact refreshRedditToken_requests cache now _ net

theorem getRedditAccessToken_cache_hot_path_witness :
    getRedditAccessToken ⟨some "cachedtok", some 1000⟩ 500 none FetchResult.networkFailure
      = ⟨⟨some "cachedtok", some 1000⟩, .ok "cachedtok", 0⟩ :=
  (getRedditAccessToken_cache_hot_path ⟨some "cachedtok", some 1000⟩ 500 none
    FetchResult.networkFailure "cachedtok" 1000 (by decide)).1 rfl (by decide) rfl (by decide)

/-- C8: when a call reaches the grant endpoint (cache miss, credentials
configured) and the endpoint answers HTTP 401, `getRedditAccessToken`
clears both the cached token value and its expiry and fails with
`AuthRejected`; and a subsequent call on the now-empty cache performs the
grant request again (one network request) instead of reusing stale
state. -/
theorem getRedditAccessToken_grant_401_clears
    (cache : TokenCache) (now now2 : Int) (cr cr2 : String × String)
    (body : Option RedditTokenResponse) (net2 : FetchResult RedditTokenResponse)
    (hmiss : tokenCacheHitB cache now = false) :
    getRedditAccessToken cache now (some cr) (FetchResult.response 401 body)
      = ⟨⟨none, none⟩, .error .AuthRejected, 1⟩ ∧
    (getRedditAccessToken ⟨none, none⟩ now2 (some cr2) net2).requests = 1 := by
  constructor
  · rw [getRedditAccessToken, hmiss]
    simp only [Bool.false_eq_true, if_false]
    rw [refreshRedditToken.eq_def]
    norm_num [statusOk]
  · have h2 : tokenCacheHitB ⟨none, none⟩ now2 = false := rfl
    rw [getRedditAccessToken, h2]
    simp only [Bool.false_eq_true, if_false]
    exact refreshRedditToken_requests _ now2 cr2 net2

theorem getRedditAccessToken_grant_401_clears_witness :
    getRedditAccessToken ⟨none, none⟩ 0 (some ("id", "secret")) (FetchResult.response 401 none)
      = ⟨⟨none, none⟩, .error .AuthRejected, 1⟩ :=
  (getRedditAccessToken_grant_401_clears ⟨none, none⟩ 0 0 ("id", "secret") ("id", "secret")
    none FetchResult.networkFailure rfl).1

/-- C10 counterexample: a failure path that does NOT clear the cache.  The
credentials-missing check is performed before the try block, so a call
that misses the cache (here: a stale token whose expiry has passed) with
unconfigured credentials fails with `CredentialsMissing` while the stale
token and expiry stay in the cache. -/
theorem getRedditAccessToken_missing_creds_keeps_stale_cache :
    (getRedditAccessToken ⟨some "staletok", some 5⟩ 10 none
        FetchResult.networkFailure).result = .error .CredentialsMissing ∧
    (getRedditAccessToken ⟨some "staletok", some 5⟩ 10 none
        FetchResult.networkFailure).cache = ⟨some "staletok", some 5⟩ :=
  ⟨rfl, rfl⟩

/-- C10 (amended): on every failure path of `getRedditAccessToken` that
occurs with credentials configured — a 401 or other non-2xx grant status,
a malformed token response, or a network failure — both cache fields are
cleared before the error propagates.  (The `CredentialsMissing` failure,
raised before the grant attempt, leaves the cache untouched.) -/
theorem getRedditAccessToken_failure_clears_cache
    (cache : TokenCache) (now : Int) (cr : String × String)
    (net : FetchResult RedditTokenResponse) (e : ScrapeError)
    (h : (getRedditAccessToken cache now (some cr) net).result = .error e) :
    (getRedditAccessToken cache now (some cr) net).cache = ⟨none, none⟩ := by
  rw [getRedditAccessToken] at h ⊢
  by_cases hhit : tokenCacheHitB cache now
  · rw [if_pos hhit] at h
    exact absurd h (by simp)
  · rw [if_neg hhit] at h ⊢
    exact refreshRedditToken_error_clears cache now cr net e h

theorem getRedditAccessToken_failure_clears_cache_witness :
    (getRedditAccessToken ⟨some "staletok", some 5⟩ 10 (some ("id", "secret"))
        (FetchResult.response 500 none)).cache = ⟨none, none⟩ :=
  getRedditAccessToken_failure_clears_cache ⟨some "staletok", some 5⟩ 10 ("id", "secret")
    (FetchResult.response 500 none) .AuthRejected rfl

lemma scrapeTrendyImages_with_token (subredditUrl : String) (limit : Int)
    (cache : TokenCache) (now : Int) (creds : Option (String × String))
    (tokenNet : FetchResult RedditTokenResponse) (listingNet : FetchResult RedditApiResponse)
    (name tok : String)
    (hname : extractSubredditName subredditUrl = some name)
    (htok : (getRedditAccessToken cache now creds tokenNet).result = .ok tok) :
    scrapeTrendyImages subredditUrl limit cache now creds tokenNet listingNet
      = handleListingResponse (getRedditAccessToken cache now creds tokenNet).cache
          listingNet := by
  rw [scrapeTrendyImages.eq_def, hname]
  dsimp only
  rw [htok]

/-- C7: the code evaluated at the failing inputs of the claim.  With a
valid community URL and a token in hand, a 403 and a 429 response both
end in the same generic `UpstreamError` that an arbitrary other failing
status (here 500) produces — not in `AccessDenied` or `RateLimited` as
the claim (and the clear intent of the dedicated throw sites, the catch
filter entries `(403)` and `(429)`, and the downstream handlers) says:
the thrown messages read `(403 Forbidden)` and `(429 Too Many Requests)`,
which the rethrow filter substrings `(403)` and `(429)` do not match, so
the specific errors are swallowed and replaced by the generic one.  The
remaining behaviors of the claim are intact: 404 fails `SourceNotFound`,
401 clears both token-cache fields and fails `AuthRejected`, a malformed
body fails `UpstreamError`, and every case is an error — no list of posts
is returned. -/
theorem scrapeTrendyImages_403_429_degrade_to_generic :
    (scrapeTrendyImages "https://www.reddit.com/r/pics/" 25 ⟨some "tok", some 100⟩ 50 none
      FetchResult.networkFailure (.response 403 none)).2 = .error .UpstreamError ∧
    (scrapeTrendyImages "https://www.reddit.com/r/pics/" 25 ⟨some "tok", some 100⟩ 50 none
      FetchResult.networkFailure (.response 429 none)).2 = .error .UpstreamError ∧
    (scrapeTrendyImages "https://www.reddit.com/r/pics/" 25 ⟨some "tok", some 100⟩ 50 none
      FetchResult.networkFailure (.response 500 none)).2 = .error .UpstreamError ∧
    (scrapeTrendyImages "https://www.reddit.com/r/pics/" 25 ⟨some "tok", some 100⟩ 50 none
      FetchResult.networkFailure (.response 404 none)).2 = .error .SourceNotFound ∧
    scrapeTrendyImages "https://www.reddit.com/r/pics/" 25 ⟨some "tok", some 100⟩ 50 none
      FetchResult.networkFailure (.response 401 none)
      = (⟨none, none⟩, .error .AuthRejected) ∧
    (scrapeTrendyImages "https://www.reddit.com/r/pics/" 25 ⟨some "tok", some 100⟩ 50 none
      FetchResult.networkFailure (.response 200 none)).2 = .error .UpstreamError :=
  ⟨rfl, rfl, rfl, rfl, rfl, rfl⟩

lemma handleListingResponse_ok_shape (tcache : TokenCache)
    (listingNet : FetchResult RedditApiResponse) (posts : List MediaPost)
    (h : (handleListingResponse tcache listingNet).2 = .ok posts) :
    ∃ children, posts = processListing children := by
  cases listingNet with
  | networkFailure => exact absurd h (by simp [handleListingResponse])
  | response status body =>
    rw [handleListingResponse.eq_def] at h; dsimp only at h
    split at h
    · split at h
      · exact absurd h (by simp)
      · split at h
        · exact absurd h (by simp)
        · split at h
          · exact absurd h (by simp)
          · split at h
            · exact absurd h (by simp)
            · exact absurd h (by simp)
    · split at h
      · exact absurd h (by simp)
      · split at h
        · exact absurd h (by simp)
        · split at h
          · exact absurd h (by simp)
          · split at h
            · exact absurd h (by simp)
            · simp only [Prod.snd] at h
              exact ⟨_, by injection h with h; exact h.symm⟩

lemma scrapeTrendyImages_ok_shape (subredditUrl : String) (limit : Int)
    (cache : TokenCache) (now : Int) (creds : Option (String × String))
    (tokenNet : FetchResult RedditTokenResponse) (listingNet : FetchResult RedditApiResponse)
    (posts : List MediaPost)
    (h : (scrapeTrendyImages subredditUrl limit cache now creds tokenNet listingNet).2
          = .ok posts) :
    ∃ children, posts = processListing children := by
  rw [scrapeTrendyImages.eq_def] at h
  split at h
  · exact absurd h (by simp)
  · dsimp only at h
    split at h
    · exact absurd h (by simp)
    · exact handleListingResponse_ok_shape _ _ _ h

/-- One loop iteration either leaves the accumulated list unchanged or
appends exactly one post, and in the latter case the appended post is an
image and no already-accumulated post shares its `mediaUrl`. -/
lemma processChild_fst_cases (acc : List MediaPost × Nat) (child : RedditListingChild) :
    (processChild acc child).1 = acc.1 ∨
      ∃ post, (processChild acc child).1 = acc.1 ++ [post] ∧
        post.mediaType = MediaType.image ∧
        acc.1.any (fun p => p.mediaUrl == post.mediaUrl) = false := by
  rw [processChild.eq_def]
  split
  · left; rfl
  · split
    · left; rfl
    · split
      · left; rfl
      · split
        · left; rfl
        · dsimp only
          split
          · left; rfl
          · rename_i mediaUrl mediaType _
            split
            · rename_i hcond
              split
              · left; rfl
              · rename_i hnodup
                right
                refine ⟨_, rfl, ?_, ?_⟩
                · have := of_decide_eq_true (Bool.and_elim_right hcond)
                  exact this
                · exact Bool.not_eq_true _ ▸ eq_false_of_ne_true hnodup
            · left; rfl

lemma foldl_processChild_nodup (children : List RedditListingChild) :
    ∀ acc : List RedditScraper.MediaPost × Nat,
      ((acc.1.map MediaPost.mediaUrl).Nodup) →
      (((children.foldl processChild acc).1.map MediaPost.mediaUrl).Nodup) := by
  induction children with
  | nil => intro acc h; exact h
  | cons child rest ih =>
    intro acc h
    rw [List.foldl_cons]
    apply ih
    rcases processChild_fst_cases acc child with hsame | ⟨post, happ, _, hfresh⟩
    · rw [hsame]; exact h
    · rw [happ, List.map_append, List.nodup_append]
      refine ⟨h, List.nodup_singleton _, ?_⟩
      intro u hu
      simp only [List.map_cons, List.map_nil, List.mem_singleton]
      intro hequ
      subst hequ
      rw [List.mem_map] at hu
      obtain ⟨p, hp, hpu⟩ := hu
      have := List.any_eq_false.mp hfresh p hp
      rw [hpu] at this
      simp at this

lemma foldl_processChild_all_images (children : List RedditListingChild) :
    ∀ acc : List MediaPost × Nat,
      (∀ p ∈ acc.1, p.mediaType = MediaType.image) →
      ∀ p ∈ (children.foldl processChild acc).1, p.mediaType = MediaType.image := by
  induction children with
  | nil => intro acc h; exact h
  | cons child rest ih =>
    intro acc h
    rw [List.foldl_cons]
    apply ih
    rcases processChild_fst_cases acc child with hsame | ⟨post, happ, himg, _⟩
    · rw [hsame]; exact h
    · rw [happ]
      intro p hp
      rcases List.mem_append.mp hp with hp | hp
      · exact h p hp
      · rw [List.mem_singleton.mp hp]
        exact himg

/-- C1: whenever `scrapeTrendyImages` (with a limit in bounds) returns
successfully, no two elements of the returned list share a `mediaUrl`:
each classified entry is checked against every `mediaUrl` accumulated so
far and exact duplicates are silently dropped. -/
theorem scrapeTrendyImages_nodup_mediaUrl (subredditUrl : String) (limit : Int)
    (cache : TokenCache) (now : Int) (creds : Option (String × String))
    (tokenNet : FetchResult RedditTokenResponse) (listingNet : FetchResult RedditApiResponse)
    (posts : List MediaPost)
    (hlim1 : 1 ≤ limit) (hlim2 : limit ≤ 100)
    (h : (scrapeTrendyImages subredditUrl limit cache now creds tokenNet listingNet).2
          = .ok posts) :
    (posts.map MediaPost.mediaUrl).Nodup := by
  obtain ⟨children, hch⟩ :=
    scrapeTrendyImages_ok_shape subredditUrl limit cache now creds tokenNet listingNet posts h
  subst hch
  exact foldl_processChild_nodup children ([], 0) (by simp)

/-- C2: every element of a successful `scrapeTrendyImages` result has
`mediaType = image` — video and redgifs classifications are discarded
inside the fetcher itself, so de-duplication only ever compares image
entries. -/
theorem scrapeTrendyImages_only_images (subredditUrl : String) (limit : Int)
    (cache : TokenCache) (now : Int) (creds : Option (String × String))
    (tokenNet : FetchResult RedditTokenResponse) (listingNet : FetchResult RedditApiResponse)
    (posts : List MediaPost)
    (h : (scrapeTrendyImages subredditUrl limit cache now creds tokenNet listingNet).2
          = .ok posts) :
    ∀ p ∈ posts, p.mediaType = MediaType.image := by
  obtain ⟨children, hch⟩ :=
    scrapeTrendyImages_ok_shape subredditUrl limit cache now creds tokenNet listingNet posts h
  subst hch
  exact foldl_processChild_all_images children ([], 0) (by simp)

/-- A plain direct-image listing entry, as in the spec example
`{post_hint:"image", url:"https://i.redd.it/abc.jpg", stickied:false}`. -/
def sampleImageChild : RedditListingChild :=
  { kind := "t3",
    data := some { title := "A", permalink := "/r/pics/comments/1/a/",
                   url := "https://i.redd.it/abc.jpg", post_hint := some PostHint.image,
                   is_video := false, is_gallery := false, stickied := false,
                   domain := "i.redd.it", preview := none, media := none,
                   secure_media_embed := none } }

/-- A well-shaped hot-listing body carrying `sampleImageChild` twice (the
duplicate is dropped by de-duplication). -/
def goodListing : RedditApiResponse :=
  ⟨"Listing", some ⟨some [sampleImageChild, sampleImageChild]⟩⟩

/-- The single `MediaPost` that scraping `goodListing` produces. -/
def samplePost : MediaPost :=
  { mediaUrl := "https://i.redd.it/abc.jpg", mediaType := MediaType.image,
    title := "A", redditUrl := "https://www.reddit.com/r/pics/comments/1/a/" }

theorem scrapeTrendyImages_nodup_mediaUrl_witness :
    ([samplePost].map MediaPost.mediaUrl).Nodup :=
  scrapeTrendyImages_nodup_mediaUrl "https://www.reddit.com/r/pics/" 25
    ⟨some "tok", some 100⟩ 50 none FetchResult.networkFailure
    (.response 200 (some goodListing)) [samplePost] (by decide) (by decide) rfl

theorem scrapeTrendyImages_only_images_witness :
    samplePost.mediaType = MediaType.image :=
  scrapeTrendyImages_only_images "https://www.reddit.com/r/pics/" 25
    ⟨some "tok", some 100⟩ 50 none FetchResult.networkFailure
    (.response 200 (some goodListing)) [samplePost] rfl samplePost
    (List.mem_singleton.mpr rfl)

end RedditScraper
